import Mathlib

/-!
Verification of the case-study modal navigators of the portfolio repository.

The two navigator variants live in `src/AdminCaseStudy.jsx` (frame-per-image,
desktop breakpoint 1025 px) and `src/UserCaseStudy.jsx` (panel-per-feature,
mobile breakpoint 641 px).  This file shallowly embeds their state and event
handlers: pure data (the content tree and the derived frame list) becomes
plain Lean data, the React `useState` cells become fields of explicit state
records, and each handler (`handleScroll`, `navigateToFrame` /
`navigateToPanel`, `handleKeyDown`, the reset-on-open effect, the
`checkLayout` resize listener, and the zoom-toggle click handlers) becomes a
state-transition function translated line by line from the source.

Modelling conventions:
* JavaScript numbers that only ever hold DOM pixel measurements or scroll
  offsets are modelled as `Nat` (the DOM reports non-negative values here);
  frame indices are modelled as `Int` because handlers pass
  `currentFrame - 1`, which can be negative before the bounds guard runs.
* `Math.round(p / q)` for natural `p`, `q` is `⌊p/q + 1/2⌋`, embedded as the
  natural-number computation `(2*p + q) / (2*q)`; the lemma
  `jsRoundDiv_eq_round` proves this agrees with Mathlib's `round` on `ℚ`
  whenever `q > 0` (for `q = 0` JavaScript produces `NaN`/`Infinity`, which
  has no counterpart here, so scroll-handler statements assume a mounted
  container of positive extent where this matters).
* `container.scrollTo({left/top, behavior: smooth})` is modelled as setting
  the container's scroll offset on the active axis to the requested target.
* Calling the `onClose` callback is modelled as a `Bool` result component
  (`true` means the handler invoked `onClose`).
-/

namespace Portfolio

/-- One mockup image of the content tree (`{ src, alt }` in the data). -/
structure Mockup where
  src : String
  alt : String
  deriving Repr, DecidableEq

/-- One panel of the content tree (`{ label, title, description, mockups }`). -/
structure Panel where
  label : String
  title : String
  description : String
  mockups : List Mockup
  deriving Repr, DecidableEq

/-- The content tree handed to a navigator (`caseStudy` prop). -/
structure CaseStudy where
  title : String
  description : String
  panels : List Panel
  deriving Repr, DecidableEq

/-- Payload of a content frame as pushed by the `frames` memo of
`AdminCaseStudy.jsx` (lines 38-49): the panel context, the single mockup,
its 1-based position, the panel's mockup count, the panel's 0-based
position, and the first/last flags. -/
structure ContentFrameData where
  panelLabel : String
  panelTitle : String
  description : String
  mockup : Mockup
  imageNumber : Nat
  totalImages : Nat
  panelIndex : Nat
  isFirstInPanel : Bool
  isLastInPanel : Bool
  deriving Repr, DecidableEq

/-- A frame of the flattened list: the intro frame (`type: 'intro'`) or a
content frame (`type: 'content'`). -/
inductive Frame where
  | intro (title description : String)
  | content (data : ContentFrameData)
  deriving Repr, DecidableEq

/-- The frames contributed by one panel: `panel.mockups.forEach((mockup,
mockupIndex) => allFrames.push({...}))` in `AdminCaseStudy.jsx` lines 37-50. -/
def panelFrames (panel : Panel) (panelIndex : Nat) : List Frame :=
  panel.mockups.enum.map fun im =>
    Frame.content
      { panelLabel := panel.label
        panelTitle := panel.title
        description := panel.description
        mockup := im.2
        imageNumber := im.1 + 1
        totalImages := panel.mockups.length
        panelIndex := panelIndex
        isFirstInPanel := im.1 == 0
        isLastInPanel := im.1 == panel.mockups.length - 1 }

/-- The content frames of all panels in order:
`caseStudy.panels.forEach((panel, panelIndex) => ...)` (lines 36-51). -/
def contentFrames : List Panel → Nat → List Frame
  | [], _ => []
  | panel :: rest, panelIndex =>
      panelFrames panel panelIndex ++ contentFrames rest (panelIndex + 1)

/-- The frame list built from a non-null case study: the intro frame pushed
first (lines 29-33) followed by the content frames (lines 36-51). -/
def buildFrames (caseStudy : CaseStudy) : List Frame :=
  Frame.intro caseStudy.title caseStudy.description :: contentFrames caseStudy.panels 0

/-- The complete `frames` memo of `AdminCaseStudy.jsx` lines 23-54,
including the `if (!caseStudy) return []` guard. -/
def framesOf : Option CaseStudy → List Frame
  | none => []
  | some cs => buildFrames cs

/-- The scroll container element: current scroll offsets and measured
extents (`scrollLeft`, `scrollTop`, `offsetWidth`, `offsetHeight`). -/
structure Container where
  scrollLeft : Nat
  scrollTop : Nat
  offsetWidth : Nat
  offsetHeight : Nat
  deriving Repr, DecidableEq

/-- The extent of one frame page, measured fresh from the container:
`isVerticalLayout ? container.offsetHeight : container.offsetWidth`. -/
def frameExtent (c : Container) (isVerticalLayout : Bool) : Nat :=
  if isVerticalLayout then c.offsetHeight else c.offsetWidth

/-- The scroll offset on the active axis:
`isVerticalLayout ? container.scrollTop : container.scrollLeft`. -/
def scrollPositionOf (c : Container) (isVerticalLayout : Bool) : Nat :=
  if isVerticalLayout then c.scrollTop else c.scrollLeft

/-- `container.scrollTo({top/left: target, behavior: 'smooth'})`, modelled
as setting the scroll offset of the active axis to the requested target. -/
def scrollTo (c : Container) (isVerticalLayout : Bool) (target : Nat) : Container :=
  if isVerticalLayout then { c with scrollTop := target } else { c with scrollLeft := target }

/-- `Math.round(p / q)` on natural inputs: `⌊p/q + 1/2⌋ = (2p + q) / (2q)`
in natural-number division (JavaScript rounds halves up). -/
def jsRoundDiv (p q : Nat) : Nat := (2 * p + q) / (2 * q)

/-- React state of `AdminCaseStudy` (lines 14-20) together with the scroll
container ref and the `caseStudy` prop. -/
structure AdminState where
  currentFrame : Int
  zoomedFrame : Option Nat
  isVerticalLayout : Bool
  showKeyboardHints : Bool
  container : Option Container
  caseStudy : Option CaseStudy
  deriving Repr, DecidableEq

/-- The memoized `frames` value visible to the Admin handlers. -/
def AdminState.frames (s : AdminState) : List Frame := framesOf s.caseStudy

/-- Body of the throttled `handleScroll` of `AdminCaseStudy.jsx` lines
115-126: bail out when the container ref is null, otherwise set
`currentFrame` to `Math.round(scrollPosition / containerSize)` (no clamp). -/
def handleScroll (s : AdminState) : AdminState :=
  match s.container with
  | none => s
  | some c =>
      let scrollPosition := scrollPositionOf c s.isVerticalLayout
      let containerSize := frameExtent c s.isVerticalLayout
      { s with currentFrame := (jsRoundDiv scrollPosition containerSize : Int) }

/-- `navigateToFrame` of `AdminCaseStudy.jsx` lines 138-158: bounds guard,
null-container guard, smooth scroll to `frameSize * index`, then
`setCurrentFrame(index)`. -/
def navigateToFrame (s : AdminState) (index : Int) : AdminState :=
  if index < 0 ∨ (s.frames.length : Int) ≤ index then s
  else
    match s.container with
    | none => s
    | some c =>
        let frameSize := frameExtent c s.isVerticalLayout
        { s with
            container := some (scrollTo c s.isVerticalLayout (frameSize * index.toNat))
            currentFrame := index }

/-- The keyboard keys the navigators react to. -/
inductive Key where
  | escape
  | arrowRight
  | arrowDown
  | arrowLeft
  | arrowUp
  | other
  deriving Repr, DecidableEq

/-- `handleKeyDown` of `AdminCaseStudy.jsx` lines 96-108.  The `Bool`
component records whether `onClose()` was invoked. -/
def adminHandleKeyDown (s : AdminState) (k : Key) : AdminState × Bool :=
  match k with
  | Key.escape =>
      match s.zoomedFrame with
      | some _ => ({ s with zoomedFrame := none }, false)
      | none => (s, true)
  | Key.arrowRight => (navigateToFrame s (s.currentFrame + 1), false)
  | Key.arrowDown => (navigateToFrame s (s.currentFrame + 1), false)
  | Key.arrowLeft => (navigateToFrame s (s.currentFrame - 1), false)
  | Key.arrowUp => (navigateToFrame s (s.currentFrame - 1), false)
  | Key.other => (s, false)

/-- The reset-on-open effect of `AdminCaseStudy.jsx` lines 81-90 (the
`isOpen` branch): `setCurrentFrame(0)`, `setZoomedFrame(null)`, and zero
both scroll offsets of the container when it is mounted. -/
def adminOpenReset (s : AdminState) : AdminState :=
  { s with
      currentFrame := 0
      zoomedFrame := none
      container := s.container.map fun c => { c with scrollLeft := 0, scrollTop := 0 } }

/-- The `checkLayout` resize listener of `AdminCaseStudy.jsx` lines 57-66:
`setIsVerticalLayout(window.innerWidth < 1025)` and
`setShowKeyboardHints(window.innerWidth >= 1024)`. -/
def adminCheckLayout (s : AdminState) (innerWidth : Nat) : AdminState :=
  { s with
      isVerticalLayout := decide (innerWidth < 1025)
      showKeyboardHints := decide (1024 ≤ innerWidth) }

/-- The zoom-toggle click handler of `AdminCaseStudy.jsx` line 500:
`setZoomedFrame(zoomedFrame === frameIndex ? null : frameIndex)`. -/
def toggleZoom (zoomedFrame : Option Nat) (frameIndex : Nat) : Option Nat :=
  if zoomedFrame == some frameIndex then none else some frameIndex

/-- React state of `UserCaseStudy` (lines 13-19) together with the scroll
container ref and the `caseStudy` prop.  `activeImageIndex` holds the
`"panelIndex-mockupIndex"` string key of the zoomed image, or nothing. -/
structure UserState where
  currentPanel : Int
  activeImageIndex : Option String
  isVerticalLayout : Bool
  showKeyboardHints : Bool
  container : Option Container
  caseStudy : Option CaseStudy
  deriving Repr, DecidableEq

/-- The `checkLayout` resize listener of `UserCaseStudy.jsx` lines 22-31:
`setIsVerticalLayout(window.innerWidth < 641)` and
`setShowKeyboardHints(window.innerWidth >= 1024)`. -/
def userCheckLayout (s : UserState) (innerWidth : Nat) : UserState :=
  { s with
      isVerticalLayout := decide (innerWidth < 641)
      showKeyboardHints := decide (1024 ≤ innerWidth) }

/-- The reset-on-open effect of `UserCaseStudy.jsx` lines 46-54 (the
`isOpen` branch): `setCurrentPanel(0)` and zero both scroll offsets of the
container when it is mounted.  Note that `setActiveImageIndex` is NOT
called here. -/
def userOpenReset (s : UserState) : UserState :=
  { s with
      currentPanel := 0
      container := s.container.map fun c => { c with scrollLeft := 0, scrollTop := 0 } }

/-- `navigateToPanel` of `UserCaseStudy.jsx` lines 120-140: guard
`!caseStudy || index < 0 || index >= caseStudy.panels.length + 1`, then the
null-container guard, smooth scroll to `panelSize * index`, and
`setCurrentPanel(index)`. -/
def navigateToPanel (s : UserState) (index : Int) : UserState :=
  match s.caseStudy with
  | none => s
  | some cs =>
      if index < 0 ∨ (cs.panels.length : Int) + 1 ≤ index then s
      else
        match s.container with
        | none => s
        | some c =>
            let panelSize := frameExtent c s.isVerticalLayout
            { s with
                container := some (scrollTo c s.isVerticalLayout (panelSize * index.toNat))
                currentPanel := index }

/-- `handleKeyDown` of `UserCaseStudy.jsx` lines 60-68: `Escape` always
calls `onClose()` (there is no zoom check).  The `Bool` component records
whether `onClose()` was invoked. -/
def userHandleKeyDown (s : UserState) (k : Key) : UserState × Bool :=
  match k with
  | Key.escape => (s, true)
  | Key.arrowRight => (navigateToPanel s (s.currentPanel + 1), false)
  | Key.arrowDown => (navigateToPanel s (s.currentPanel + 1), false)
  | Key.arrowLeft => (navigateToPanel s (s.currentPanel - 1), false)
  | Key.arrowUp => (navigateToPanel s (s.currentPanel - 1), false)
  | Key.other => (s, false)

/-- Body of the throttled `handleScroll` of `UserCaseStudy.jsx` lines
75-86: same shape as the Admin one, updating `currentPanel`. -/
def userHandleScroll (s : UserState) : UserState :=
  match s.container with
  | none => s
  | some c =>
      let scrollPosition := scrollPositionOf c s.isVerticalLayout
      let containerSize := frameExtent c s.isVerticalLayout
      { s with currentPanel := (jsRoundDiv scrollPosition containerSize : Int) }

/-- The zoom-toggle click handler of `UserCaseStudy.jsx` lines 940-942:
`setActiveImageIndex(isActive ? null : imageKey)` with
`isActive = activeImageIndex === imageKey`. -/
def userToggleZoom (activeImageIndex : Option String) (imageKey : String) : Option String :=
  if activeImageIndex == some imageKey then none else some imageKey

/-- Number of mockups in the panels strictly before panel `panelIndex`,
i.e. the number of content frames preceding that panel's frames. -/
def mockupCountBefore (panels : List Panel) (panelIndex : Nat) : Nat :=
  ((panels.take panelIndex).map fun p => p.mockups.length).sum

/-! ### Supporting lemmas -/

theorem panelFrames_length (panel : Panel) (panelIndex : Nat) :
    (panelFrames panel panelIndex).length = panel.mockups.length := by
  simp [panelFrames]

theorem contentFrames_length (panels : List Panel) :
    ∀ panelIndex : Nat,
      (contentFrames panels panelIndex).length = ((panels.map fun p => p.mockups.length).sum) := by
  induction panels with
  | nil => intro i; simp [contentFrames]
  | cons panel rest ih =>
      intro i
      simp [contentFrames, panelFrames_length, ih]

theorem panelFrames_getElem? (panel : Panel) (panelIndex k : Nat) (mockup : Mockup)
    (hk : panel.mockups[k]? = some mockup) :
    (panelFrames panel panelIndex)[k]? =
      some (Frame.content
        { panelLabel := panel.label
          panelTitle := panel.title
          description := panel.description
          mockup := mockup
          imageNumber := k + 1
          totalImages := panel.mockups.length
          panelIndex := panelIndex
          isFirstInPanel := k == 0
          isLastInPanel := k == panel.mockups.length - 1 }) := by
  simp [panelFrames, List.getElem?_enum, hk]

theorem contentFrames_getElem? (panels : List Panel) :
    ∀ (i p k : Nat) (panel : Panel) (mockup : Mockup),
      panels[p]? = some panel → panel.mockups[k]? = some mockup →
      (contentFrames panels i)[mockupCountBefore panels p + k]? =
        some (Frame.content
          { panelLabel := panel.label
            panelTitle := panel.title
            description := panel.description
            mockup := mockup
            imageNumber := k + 1
            totalImages := panel.mockups.length
            panelIndex := i + p
            isFirstInPanel := k == 0
            isLastInPanel := k == panel.mockups.length - 1 }) := by
  induction panels with
  | nil => intro i p k panel mockup hp; simp at hp
  | cons q rest ih =>
      intro i p k panel mockup hp hk
      cases p with
      | zero =>
          have hq : q = panel := by simpa using hp
          subst hq
          have hklt : k < q.mockups.length := by
            exact List.getElem?_eq_some.mp hk |>.1
          have hlt : mockupCountBefore (q :: rest) 0 + k < (panelFrames q i).length := by
            simpa [mockupCountBefore, panelFrames_length] using hklt
          rw [contentFrames, List.getElem?_append_left hlt]
          have := panelFrames_getElem? q i k mockup hk
          simpa [mockupCountBefore] using this
      | succ p =>
          have hp' : rest[p]? = some panel := by simpa using hp
          have hrec := ih (i + 1) p k panel mockup hp' hk
          have hshift : i + 1 + p = i + (p + 1) := by omega
          rw [hshift] at hrec
          have hcount : mockupCountBefore (q :: rest) (p + 1) + k =
              (panelFrames q i).length + (mockupCountBefore rest p + k) := by
            simp [mockupCountBefore, panelFrames_length]
            omega
          rw [contentFrames, hcount, List.getElem?_append_right (Nat.le_add_right _ _),
            Nat.add_sub_cancel_left]
          exact hrec

theorem jsRoundDiv_eq_round (p q : Nat) (hq : 0 < q) :
    (jsRoundDiv p q : Int) = round ((p : ℚ) / (q : ℚ)) := by
  have hq0 : (q : ℚ) ≠ 0 := by exact_mod_cast hq.ne.symm
  have h1 : (p : ℚ) / (q : ℚ) + 1 / 2 = ((2 * p + q : ℕ) : ℤ) / ((2 * q : ℕ) : ℚ) := by
    push_cast
    field_simp
    ring
  rw [round_eq, h1]
  rw [Rat.floor_intCast_div_natCast]
  simp [jsRoundDiv, Int.ofNat_tdiv]

/-! ### Concrete states used as witnesses and counterexamples -/

/-- Panel with a single mockup (panel A of the spec's scenario). -/
def panelA : Panel :=
  { label := "FEATURE A"
    title := "Panel A"
    description := "First feature"
    mockups := [{ src := "a1.png", alt := "A one" }] }

/-- Panel with three mockups (panel B of the spec's scenario). -/
def panelB : Panel :=
  { label := "FEATURE B"
    title := "Panel B"
    description := "Second feature"
    mockups :=
      [{ src := "b1.png", alt := "B one" },
       { src := "b2.png", alt := "B two" },
       { src := "b3.png", alt := "B three" }] }

/-- Content tree with 2 panels of 1 and 3 mockups: `frameCount = 5`. -/
def sampleStudy : CaseStudy :=
  { title := "Sample", description := "Sample case study", panels := [panelA, panelB] }

/-- A mounted container, 1200 px wide and 800 px tall, unscrolled. -/
def sampleContainer : Container :=
  { scrollLeft := 0, scrollTop := 0, offsetWidth := 1200, offsetHeight := 800 }

/-- A container whose horizontal scroll offset (5000 px) lies far beyond
the last frame of a two-frame navigator 500 px wide. -/
def overscrolledContainer : Container :=
  { scrollLeft := 5000, scrollTop := 0, offsetWidth := 500, offsetHeight := 600 }

/-- Content tree with one single-mockup panel: `frameCount = 2`. -/
def tinyStudy : CaseStudy :=
  { title := "Tiny", description := "Tiny case study", panels := [panelA] }

/-- Admin navigator observing the overscrolled container in horizontal
mode, with a two-frame content tree. -/
def adminOverscrollState : AdminState :=
  { currentFrame := 0
    zoomedFrame := none
    isVerticalLayout := false
    showKeyboardHints := true
    container := some overscrolledContainer
    caseStudy := some tinyStudy }

/-- Admin navigator on the last frame (index 4 of 5) with frame 2 zoomed. -/
def sampleAdminState : AdminState :=
  { currentFrame := 4
    zoomedFrame := some 2
    isVerticalLayout := false
    showKeyboardHints := true
    container := some sampleContainer
    caseStudy := some sampleStudy }

/-- User navigator with image "0-1" zoomed. -/
def zoomedUserState : UserState :=
  { currentPanel := 2
    activeImageIndex := some "0-1"
    isVerticalLayout := false
    showKeyboardHints := true
    container := some sampleContainer
    caseStudy := some sampleStudy }

/-- Admin navigator whose scroll container is not mounted. -/
def detachedAdminState : AdminState :=
  { currentFrame := 0
    zoomedFrame := none
    isVerticalLayout := true
    showKeyboardHints := false
    container := none
    caseStudy := some sampleStudy }

/-- User navigator whose scroll container is not mounted. -/
def detachedUserState : UserState :=
  { currentPanel := 0
    activeImageIndex := none
    isVerticalLayout := true
    showKeyboardHints := false
    container := none
    caseStudy := some sampleStudy }

/-! ### Claims -/

/-- C1: for every content tree with panels of mockup counts `Mᵢ`, the frame
list has length `1 + Σ Mᵢ`, its element at index 0 is the intro frame, and
a content tree with zero panels yields exactly one frame (the intro). -/
theorem frames_length_and_head (cs : CaseStudy) :
    (buildFrames cs).length = 1 + ((cs.panels.map fun p => p.mockups.length).sum) ∧
    (buildFrames cs)[0]? = some (Frame.intro cs.title cs.description) ∧
    (cs.panels = [] → (buildFrames cs).length = 1) := by
  refine ⟨?_, by simp [buildFrames], ?_⟩
  · simp [buildFrames, contentFrames_length, Nat.add_comm]
  · intro h
    simp [buildFrames, h, contentFrames]

/-- Witness for C1 at a concrete zero-panel content tree. -/
theorem frames_length_and_head_witness :
    (buildFrames { title := "T", description := "D", panels := [] }).length = 1 ∧
    (buildFrames { title := "T", description := "D", panels := [] })[0]? =
      some (Frame.intro "T" "D") :=
  ⟨(frames_length_and_head { title := "T", description := "D", panels := [] }).2.2 rfl,
   (frames_length_and_head { title := "T", description := "D", panels := [] }).2.1⟩

/-- C2 counterexample: the scroll handler does not clamp.  With a mounted
500 px-wide container scrolled to 5000 px and a two-frame content tree, the
handler sets `currentFrame = 10`, far outside `[0, frameCount - 1]`, so the
claim that `currentFrameIndex` is clamped into range after every
`onScroll` is false at this input. -/
theorem handleScroll_no_clamp_cex :
    (handleScroll adminOverscrollState).currentFrame = 10 ∧
    adminOverscrollState.frames.length = 2 ∧
    ¬ (handleScroll adminOverscrollState).currentFrame ≤
        (adminOverscrollState.frames.length : Int) - 1 := by
  refine ⟨by decide, by decide, by decide⟩

/-- C2 (amended): after `onScroll` with a mounted container, the current
index equals `Math.round(scrollOffset / frameExtent)` with NO clamping (for
positive extent this is exactly the mathematical `round` of the quotient;
the result may lie outside `[0, frameCount - 1]`); the other state fields
are unchanged.  The same holds for the User variant. -/
theorem handleScroll_round_unclamped :
    (∀ (s : AdminState) (c : Container) (pos size : Nat),
      s.container = some c →
      pos = scrollPositionOf c s.isVerticalLayout →
      size = frameExtent c s.isVerticalLayout →
      (handleScroll s).currentFrame = (jsRoundDiv pos size : Int) ∧
      (0 < size → (handleScroll s).currentFrame = round ((pos : ℚ) / (size : ℚ))) ∧
      (handleScroll s).zoomedFrame = s.zoomedFrame ∧
      (handleScroll s).container = s.container ∧
      (handleScroll s).caseStudy = s.caseStudy) ∧
    (∀ (s : UserState) (c : Container) (pos size : Nat),
      s.container = some c →
      pos = scrollPositionOf c s.isVerticalLayout →
      size = frameExtent c s.isVerticalLayout →
      (userHandleScroll s).currentPanel = (jsRoundDiv pos size : Int) ∧
      (0 < size → (userHandleScroll s).currentPanel = round ((pos : ℚ) / (size : ℚ))) ∧
      (userHandleScroll s).activeImageIndex = s.activeImageIndex ∧
      (userHandleScroll s).container = s.container ∧
      (userHandleScroll s).caseStudy = s.caseStudy) := by
  constructor
  · intro s c pos size hc hpos hsize
    subst hpos hsize
    refine ⟨by simp [handleScroll, hc], ?_, by simp [handleScroll, hc],
      by simp [handleScroll, hc], by simp [handleScroll, hc]⟩
    intro hsz
    rw [← jsRoundDiv_eq_round _ _ hsz]
    simp [handleScroll, hc]
  · intro s c pos size hc hpos hsize
    subst hpos hsize
    refine ⟨by simp [userHandleScroll, hc], ?_, by simp [userHandleScroll, hc],
      by simp [userHandleScroll, hc], by simp [userHandleScroll, hc]⟩
    intro hsz
    rw [← jsRoundDiv_eq_round _ _ hsz]
    simp [userHandleScroll, hc]

/-- Witness for the amended C2 at the overscrolled Admin state and at the
zoomed User state. -/
theorem handleScroll_round_unclamped_witness :
    ((handleScroll adminOverscrollState).currentFrame = (jsRoundDiv 5000 500 : Int) ∧
      (0 < 500 →
        (handleScroll adminOverscrollState).currentFrame = round ((5000 : ℚ) / (500 : ℚ))) ∧
      (handleScroll adminOverscrollState).zoomedFrame = adminOverscrollState.zoomedFrame ∧
      (handleScroll adminOverscrollState).container = adminOverscrollState.container ∧
      (handleScroll adminOverscrollState).caseStudy = adminOverscrollState.caseStudy) ∧
    ((userHandleScroll zoomedUserState).currentPanel = (jsRoundDiv 0 1200 : Int) ∧
      (0 < 1200 →
        (userHandleScroll zoomedUserState).currentPanel = round ((0 : ℚ) / (1200 : ℚ))) ∧
      (userHandleScroll zoomedUserState).activeImageIndex = zoomedUserState.activeImageIndex ∧
      (userHandleScroll zoomedUserState).container = zoomedUserState.container ∧
      (userHandleScroll zoomedUserState).caseStudy = zoomedUserState.caseStudy) :=
  ⟨handleScroll_round_unclamped.1 adminOverscrollState overscrolledContainer 5000 500
      rfl rfl rfl,
   handleScroll_round_unclamped.2 zoomedUserState sampleContainer 0 1200 rfl rfl rfl⟩

/-- C3: out-of-range navigation is a no-op in both variants (the whole
state is returned unchanged and no error is raised), and pressing
`ArrowRight` at `currentFrameIndex = frameCount - 1` leaves the state
unchanged (no wraparound). -/
theorem navigate_out_of_range_noop :
    (∀ (s : AdminState) (index : Int),
      index < 0 ∨ (s.frames.length : Int) ≤ index → navigateToFrame s index = s) ∧
    (∀ (s : UserState) (cs : CaseStudy) (index : Int),
      s.caseStudy = some cs →
      index < 0 ∨ (cs.panels.length : Int) + 1 ≤ index → navigateToPanel s index = s) ∧
    (∀ s : AdminState,
      s.currentFrame = (s.frames.length : Int) - 1 →
      adminHandleKeyDown s Key.arrowRight = (s, false)) ∧
    (∀ (s : UserState) (cs : CaseStudy),
      s.caseStudy = some cs →
      s.currentPanel = (cs.panels.length : Int) →
      userHandleKeyDown s Key.arrowRight = (s, false)) := by
  have hadmin : ∀ (s : AdminState) (index : Int),
      index < 0 ∨ (s.frames.length : Int) ≤ index → navigateToFrame s index = s := by
    intro s index h
    simp [navigateToFrame, h]
  have huser : ∀ (s : UserState) (cs : CaseStudy) (index : Int),
      s.caseStudy = some cs →
      index < 0 ∨ (cs.panels.length : Int) + 1 ≤ index → navigateToPanel s index = s := by
    intro s cs index hcs h
    simp [navigateToPanel, hcs, h]
  refine ⟨hadmin, huser, ?_, ?_⟩
  · intro s hlast
    have : navigateToFrame s (s.currentFrame + 1) = s := by
      apply hadmin
      right
      omega
    simp [adminHandleKeyDown, this]
  · intro s cs hcs hlast
    have : navigateToPanel s (s.currentPanel + 1) = s := by
      apply huser s cs _ hcs
      right
      omega
    simp [userHandleKeyDown, this]

/-- Witness for C3: a negative index and an `ArrowRight` press at the last
frame on concrete states. -/
theorem navigate_out_of_range_noop_witness :
    navigateToFrame sampleAdminState (-1) = sampleAdminState ∧
    navigateToPanel zoomedUserState 9 = zoomedUserState ∧
    adminHandleKeyDown sampleAdminState Key.arrowRight = (sampleAdminState, false) :=
  ⟨navigate_out_of_range_noop.1 sampleAdminState (-1) (Or.inl (by decide)),
   navigate_out_of_range_noop.2.1 zoomedUserState sampleStudy 9 rfl (Or.inr (by decide)),
   navigate_out_of_range_noop.2.2.1 sampleAdminState (by decide)⟩

/-- C4: for every valid index with a mounted container, navigation in both
variants sets the current index to `index` and requests a scroll to
`index × frameExtent`, where the extent is the container's width in
horizontal mode and its height in vertical mode, read from the container
given at the time of the call (so it is measured fresh, never cached). -/
theorem navigate_valid_sets_frame_and_scroll :
    (∀ (s : AdminState) (c : Container) (index : Int),
      0 ≤ index → index < (s.frames.length : Int) → s.container = some c →
      navigateToFrame s index =
        { s with
            currentFrame := index
            container :=
              some (scrollTo c s.isVerticalLayout
                (frameExtent c s.isVerticalLayout * index.toNat)) }) ∧
    (∀ (s : UserState) (cs : CaseStudy) (c : Container) (index : Int),
      s.caseStudy = some cs →
      0 ≤ index → index < (cs.panels.length : Int) + 1 → s.container = some c →
      navigateToPanel s index =
        { s with
            currentPanel := index
            container :=
              some (scrollTo c s.isVerticalLayout
                (frameExtent c s.isVerticalLayout * index.toNat)) }) ∧
    (∀ c : Container, frameExtent c false = c.offsetWidth) ∧
    (∀ c : Container, frameExtent c true = c.offsetHeight) := by
  refine ⟨?_, ?_, fun _ => rfl, fun _ => rfl⟩
  · intro s c index h0 hlt hc
    have hguard : ¬ (index < 0 ∨ (s.frames.length : Int) ≤ index) := by omega
    simp [navigateToFrame, hguard, hc]
  · intro s cs c index hcs h0 hlt hc
    have hguard : ¬ (index < 0 ∨ (cs.panels.length : Int) + 1 ≤ index) := by omega
    simp [navigateToPanel, hcs, hguard, hc]

/-- Witness for C4: navigating to frame 2 of the five-frame sample Admin
navigator and to panel 1 of the User navigator, each with the mounted
1200 px-wide container. -/
theorem navigate_valid_sets_frame_and_scroll_witness :
    navigateToFrame sampleAdminState 2 =
      { sampleAdminState with
          currentFrame := 2
          container :=
            some (scrollTo sampleContainer sampleAdminState.isVerticalLayout
              (frameExtent sampleContainer sampleAdminState.isVerticalLayout *
                Int.toNat 2)) } ∧
    navigateToPanel zoomedUserState 1 =
      { zoomedUserState with
          currentPanel := 1
          container :=
            some (scrollTo sampleContainer zoomedUserState.isVerticalLayout
              (frameExtent sampleContainer zoomedUserState.isVerticalLayout *
                Int.toNat 1)) } :=
  ⟨navigate_valid_sets_frame_and_scroll.1 sampleAdminState sampleContainer 2
      (by decide) (by decide) rfl,
   navigate_valid_sets_frame_and_scroll.2.1 zoomedUserState sampleStudy sampleContainer 1
      rfl (by decide) (by decide) rfl⟩

/-- C5 counterexample: the User variant's reset-on-open effect leaves the
zoom state untouched.  Opening on a state with image "0-1" zoomed keeps
it zoomed, so the claim that every open transition resets the zoom to
none in both variants is false at this input. -/
theorem userOpenReset_keeps_zoom_cex :
    (userOpenReset zoomedUserState).activeImageIndex = some "0-1" ∧
    (userOpenReset zoomedUserState).activeImageIndex ≠ none := by
  refine ⟨rfl, by decide⟩

/-- C5 (amended): every open transition resets the current index to 0 in
both variants and rezeroes the mounted container's scroll offsets; the
Admin variant also resets `zoomedFrame` to none, but the User variant
leaves its zoom state (`activeImageIndex`) unchanged. -/
theorem open_reset_behavior :
    (∀ s : AdminState,
      (adminOpenReset s).currentFrame = 0 ∧
      (adminOpenReset s).zoomedFrame = none ∧
      (adminOpenReset s).container =
        s.container.map (fun c => { c with scrollLeft := 0, scrollTop := 0 })) ∧
    (∀ s : UserState,
      (userOpenReset s).currentPanel = 0 ∧
      (userOpenReset s).activeImageIndex = s.activeImageIndex ∧
      (userOpenReset s).container =
        s.container.map (fun c => { c with scrollLeft := 0, scrollTop := 0 })) :=
  ⟨fun _ => ⟨rfl, rfl, rfl⟩, fun _ => ⟨rfl, rfl, rfl⟩⟩

/-- C6 counterexample: in the User variant, `Escape` pressed while image
"0-1" is zoomed invokes `onClose` and leaves the zoom set, so the claim
that in both variants `Escape` first clears the zoom without closing is
false at this input. -/
theorem user_escape_closes_while_zoomed_cex :
    (userHandleKeyDown zoomedUserState Key.escape).2 = true ∧
    (userHandleKeyDown zoomedUserState Key.escape).1.activeImageIndex = some "0-1" := by
  refine ⟨rfl, rfl⟩

/-- C6 (amended): in the Admin variant, `Escape` while a frame is zoomed
clears the zoom and does not invoke `onClose`, and `Escape` with no zoom
invokes `onClose`; in the User variant, `Escape` always invokes `onClose`
and leaves the whole state (including the zoom) unchanged. -/
theorem escape_key_behavior :
    (∀ (s : AdminState) (i : Nat),
      s.zoomedFrame = some i →
      adminHandleKeyDown s Key.escape = ({ s with zoomedFrame := none }, false)) ∧
    (∀ s : AdminState,
      s.zoomedFrame = none → adminHandleKeyDown s Key.escape = (s, true)) ∧
    (∀ s : UserState, userHandleKeyDown s Key.escape = (s, true)) := by
  refine ⟨?_, ?_, fun _ => rfl⟩
  · intro s i h
    simp [adminHandleKeyDown, h]
  · intro s h
    simp [adminHandleKeyDown, h]

/-- Witness for the amended C6: `Escape` on the zoomed sample Admin state
and on the unzoomed overscrolled Admin state. -/
theorem escape_key_behavior_witness :
    adminHandleKeyDown sampleAdminState Key.escape =
      ({ sampleAdminState with zoomedFrame := none }, false) ∧
    adminHandleKeyDown adminOverscrollState Key.escape = (adminOverscrollState, true) :=
  ⟨escape_key_behavior.1 sampleAdminState 2 rfl,
   escape_key_behavior.2.1 adminOverscrollState rfl⟩

/-- C7 counterexample: starting from a state already zoomed on frame 1,
applying the zoom toggle for index 1 twice yields `some 1`, not none, so
the claim that a double application always returns to none is false at
this input. -/
theorem toggleZoom_double_from_zoomed_cex :
    toggleZoom (toggleZoom (some 1) 1) 1 = some 1 ∧
    toggleZoom (toggleZoom (some 1) 1) 1 ≠ none := by
  refine ⟨rfl, by decide⟩

/-- C7 (amended): the zoom toggle sets the zoom to the clicked index when
the current zoom differs from it and clears it to none when it matches;
hence double application returns to none exactly when the starting state
was not already zoomed on that index, and after any toggle at most the
clicked index is zoomed (the state holds at most one zoomed frame).  The
same holds for the User variant's string-keyed toggle. -/
theorem toggleZoom_spec :
    (∀ (z : Option Nat) (i : Nat), z ≠ some i → toggleZoom z i = some i) ∧
    (∀ i : Nat, toggleZoom (some i) i = none) ∧
    (∀ (z : Option Nat) (i : Nat), z ≠ some i → toggleZoom (toggleZoom z i) i = none) ∧
    (∀ (z : Option Nat) (i : Nat), toggleZoom z i = none ∨ toggleZoom z i = some i) ∧
    (∀ (z : Option String) (k : String), z ≠ some k → userToggleZoom z k = some k) ∧
    (∀ k : String, userToggleZoom (some k) k = none) ∧
    (∀ (z : Option String) (k : String),
      z ≠ some k → userToggleZoom (userToggleZoom z k) k = none) ∧
    (∀ (z : Option String) (k : String),
      userToggleZoom z k = none ∨ userToggleZoom z k = some k) := by
  have hset : ∀ (z : Option Nat) (i : Nat), z ≠ some i → toggleZoom z i = some i := by
    intro z i h
    simp [toggleZoom, h]
  have hclear : ∀ i : Nat, toggleZoom (some i) i = none := by
    intro i
    simp [toggleZoom]
  have huset : ∀ (z : Option String) (k : String), z ≠ some k → userToggleZoom z k = some k := by
    intro z k h
    simp [userToggleZoom, h]
  have huclear : ∀ k : String, userToggleZoom (some k) k = none := by
    intro k
    simp [userToggleZoom]
  refine ⟨hset, hclear, ?_, ?_, huset, huclear, ?_, ?_⟩
  · intro z i h
    rw [hset z i h, hclear]
  · intro z i
    by_cases h : z = some i
    · subst h
      exact Or.inl (hclear i)
    · exact Or.inr (hset z i h)
  · intro z k h
    rw [huset z k h, huclear]
  · intro z k
    by_cases h : z = some k
    · subst h
      exact Or.inl (huclear k)
    · exact Or.inr (huset z k h)

/-- Witness for the amended C7: a double toggle from the unzoomed state
and from a differently zoomed state, on both variants. -/
theorem toggleZoom_spec_witness :
    toggleZoom none 3 = some 3 ∧
    toggleZoom (toggleZoom none 3) 3 = none ∧
    toggleZoom (toggleZoom (some 7) 3) 3 = none ∧
    userToggleZoom none "0-1" = some "0-1" ∧
    userToggleZoom (userToggleZoom none "0-1") "0-1" = none :=
  ⟨toggleZoom_spec.1 none 3 (by decide),
   toggleZoom_spec.2.2.1 none 3 (by decide),
   toggleZoom_spec.2.2.1 (some 7) 3 (by decide),
   toggleZoom_spec.2.2.2.2.1 none "0-1" (by decide),
   toggleZoom_spec.2.2.2.2.2.2.1 none "0-1" (by decide)⟩

/-- C8: every content frame at flat position `1 + (mockups before its
panel) + (its position in its panel)` carries `imageNumber` equal to its
1-based position in the panel, `totalImages` equal to the panel's mockup
count, `panelIndex` equal to the panel's 0-based position, and the
first/last flags accordingly, frames being ordered panel-first then
mockup; in particular, for the 2-panel tree with 1 and 3 mockups
`frameCount = 5`, frame 1 is first and last in panel 0, and frame 4 is
the non-first, last image 3 of 3 of panel 1. -/
theorem content_frame_fields :
    (∀ (cs : CaseStudy) (p k : Nat) (panel : Panel) (mockup : Mockup),
      cs.panels[p]? = some panel → panel.mockups[k]? = some mockup →
      (buildFrames cs)[1 + mockupCountBefore cs.panels p + k]? =
        some (Frame.content
          { panelLabel := panel.label
            panelTitle := panel.title
            description := panel.description
            mockup := mockup
            imageNumber := k + 1
            totalImages := panel.mockups.length
            panelIndex := p
            isFirstInPanel := k == 0
            isLastInPanel := k == panel.mockups.length - 1 })) ∧
    (buildFrames sampleStudy).length = 5 ∧
    (buildFrames sampleStudy)[1]? =
      some (Frame.content
        { panelLabel := "FEATURE A"
          panelTitle := "Panel A"
          description := "First feature"
          mockup := { src := "a1.png", alt := "A one" }
          imageNumber := 1
          totalImages := 1
          panelIndex := 0
          isFirstInPanel := true
          isLastInPanel := true }) ∧
    (buildFrames sampleStudy)[4]? =
      some (Frame.content
        { panelLabel := "FEATURE B"
          panelTitle := "Panel B"
          description := "Second feature"
          mockup := { src := "b3.png", alt := "B three" }
          imageNumber := 3
          totalImages := 3
          panelIndex := 1
          isFirstInPanel := false
          isLastInPanel := true }) := by
  refine ⟨?_, by decide, by decide, by decide⟩
  intro cs p k panel mockup hp hk
  have h := contentFrames_getElem? cs.panels 0 p k panel mockup hp hk
  have hidx : 1 + mockupCountBefore cs.panels p + k =
      (mockupCountBefore cs.panels p + k) + 1 := by omega
  simp only [buildFrames, hidx, List.getElem?_cons_succ]
  simpa using h

/-- Witness for C8 at panel 1, mockup 2 of the sample content tree. -/
theorem content_frame_fields_witness :
    (buildFrames sampleStudy)[1 + mockupCountBefore sampleStudy.panels 1 + 2]? =
      some (Frame.content
        { panelLabel := panelB.label
          panelTitle := panelB.title
          description := panelB.description
          mockup := { src := "b3.png", alt := "B three" }
          imageNumber := 2 + 1
          totalImages := panelB.mockups.length
          panelIndex := 1
          isFirstInPanel := 2 == 0
          isLastInPanel := 2 == panelB.mockups.length - 1 }) :=
  content_frame_fields.1 sampleStudy 1 2 panelB { src := "b3.png", alt := "B three" }
    rfl rfl

/-- C9: the layout-recomputation step sets `isVerticalLayout` from the
per-variant threshold (below 1025 px for the desktop variant, below 641 px
for the mobile variant) and the keyboard-hint flag, and leaves every other
navigator state field — in particular the current index — unchanged. -/
theorem checkLayout_preserves_navigation :
    (∀ (s : AdminState) (w : Nat),
      (adminCheckLayout s w).currentFrame = s.currentFrame ∧
      (adminCheckLayout s w).zoomedFrame = s.zoomedFrame ∧
      (adminCheckLayout s w).container = s.container ∧
      (adminCheckLayout s w).caseStudy = s.caseStudy ∧
      (adminCheckLayout s w).isVerticalLayout = decide (w < 1025) ∧
      (adminCheckLayout s w).showKeyboardHints = decide (1024 ≤ w)) ∧
    (∀ (s : UserState) (w : Nat),
      (userCheckLayout s w).currentPanel = s.currentPanel ∧
      (userCheckLayout s w).activeImageIndex = s.activeImageIndex ∧
      (userCheckLayout s w).container = s.container ∧
      (userCheckLayout s w).caseStudy = s.caseStudy ∧
      (userCheckLayout s w).isVerticalLayout = decide (w < 641) ∧
      (userCheckLayout s w).showKeyboardHints = decide (1024 ≤ w)) :=
  ⟨fun _ _ => ⟨rfl, rfl, rfl, rfl, rfl, rfl⟩,
   fun _ _ => ⟨rfl, rfl, rfl, rfl, rfl, rfl⟩⟩

/-- C10: navigation with a valid index but an unmounted container (null
ref) leaves the whole state unchanged in both variants — in particular
the current index is not set even though the index passed the bounds
check. -/
theorem navigate_null_container_noop :
    (∀ (s : AdminState) (index : Int),
      0 ≤ index → index < (s.frames.length : Int) → s.container = none →
      navigateToFrame s index = s) ∧
    (∀ (s : UserState) (cs : CaseStudy) (index : Int),
      s.caseStudy = some cs → 0 ≤ index → index < (cs.panels.length : Int) + 1 →
      s.container = none → navigateToPanel s index = s) := by
  constructor
  · intro s index h0 hlt hc
    have hguard : ¬ (index < 0 ∨ (s.frames.length : Int) ≤ index) := by omega
    simp [navigateToFrame, hguard, hc]
  · intro s cs index hcs h0 hlt hc
    have hguard : ¬ (index < 0 ∨ (cs.panels.length : Int) + 1 ≤ index) := by omega
    simp [navigateToPanel, hcs, hguard, hc]

/-- Witness for C10 on the detached (container-less) states with in-range
indices. -/
theorem navigate_null_container_noop_witness :
    navigateToFrame detachedAdminState 3 = detachedAdminState ∧
    navigateToPanel detachedUserState 1 = detachedUserState :=
  ⟨navigate_null_container_noop.1 detachedAdminState 3 (by decide) (by decide) rfl,
   navigate_null_container_noop.2 detachedUserState sampleStudy 1 rfl (by decide)
     (by decide) rfl⟩
